import Mathlib

/-!
# Verification of the notes watch-session lifecycle manager

A shallow embedding of `src-tauri/src/notes.rs` and the `NOTES_ROOT` startup
block of `src-tauri/src/main.rs`.  Pure computations (path trimming, JSON
payload shaping, the observer thread's per-notification handling) are
translated to Lean functions; the stateful lifecycle code (`WatcherGuard`,
`NotesWatcherState::set_root`, the `set_notes_root` command) is translated to
explicit state passing, with every externally visible side effect (native
unwatch, thread join, native watch creation and registration, thread spawn,
event emission, logging) recorded in an `Effect` trace.  Outcomes of the
native layer (whether watch creation, watch registration, unwatch or join
succeed) are supplied as explicit parameters, since they are decided by the
environment, not by this code.
-/

/-- Unicode `White_Space` test, the behaviour of Rust's `char::is_whitespace`
used by `str::trim` in `set_notes_root` and `main`. -/
def isRustWhitespace (c : Char) : Bool :=
  let n := c.toNat
  (0x09 ≤ n && n ≤ 0x0D) || n == 0x20 || n == 0x85 || n == 0xA0 ||
    n == 0x1680 || (0x2000 ≤ n && n ≤ 0x200A) || n == 0x2028 || n == 0x2029 ||
    n == 0x202F || n == 0x205F || n == 0x3000

/-- Drop trailing whitespace, as the right half of Rust's `str::trim`. -/
def trimEnd (l : List Char) : List Char :=
  (l.reverse.dropWhile isRustWhitespace).reverse

/-- Rust's `str::trim`: strip leading and trailing whitespace. -/
def rustTrim (l : List Char) : List Char :=
  trimEnd (l.dropWhile isRustWhitespace)

/-- A filesystem path as handed over by the native notify layer
(`std::path::PathBuf`).  `toStr` is `Path::to_str`: `none` when the path is
not valid UTF-8. -/
structure FsPath where
  toStr : Option String
deriving DecidableEq

/-- The part of a native `notify::Event` the watcher thread reads: its
affected paths. -/
structure FsEvent where
  paths : List FsPath
deriving DecidableEq

/-- One hex digit, lower case, as produced by serde's escape writer. -/
def hexDigit (n : Nat) : Char :=
  if n < 10 then Char.ofNat (48 + n) else Char.ofNat (87 + n)

/-- JSON escaping of one character as `serde_json` does for strings. -/
def jsonEscapeChar (c : Char) : String :=
  if c = '"' then "\\\""
  else if c = '\\' then "\\\\"
  else if c = '\x08' then "\\b"
  else if c = '\x09' then "\\t"
  else if c = '\x0A' then "\\n"
  else if c = '\x0C' then "\\f"
  else if c = '\x0D' then "\\r"
  else if c.toNat < 0x20 then
    "\\u00" ++ String.mk [hexDigit (c.toNat / 16), hexDigit (c.toNat % 16)]
  else String.mk [c]

/-- `serde_json` serialization of one string. -/
def jsonEncodeString (s : String) : String :=
  "\"" ++ String.join (s.data.map jsonEscapeChar) ++ "\""

/-- `serde_json` serialization of a `Vec<String>`. -/
def jsonEncodeStringArray (xs : List String) : String :=
  "[" ++ String.intercalate "," (xs.map jsonEncodeString) ++ "]"

/-- `serde_json::to_string` on a `Vec<String>`; serialization of a vector of
strings never fails, so the result is always `ok`.  The caller still applies
the source's `unwrap_or_else` fallback. -/
def serdeToStringVec (xs : List String) : Except String String :=
  Except.ok (jsonEncodeStringArray xs)

/-- One event pushed to the GUI event bus by `app_handle.emit`. -/
structure Emit where
  topic : String
  payload : String
deriving DecidableEq

/-- Payload built by the watcher thread for a successful event: the affected
paths convertible to UTF-8, JSON-serialized, with `"[]"` as the
`unwrap_or_else` fallback. -/
def eventPayload (ev : FsEvent) : String :=
  match serdeToStringVec (ev.paths.filterMap FsPath.toStr) with
  | Except.ok s => s
  | Except.error _ => "[]"

/-- Payload built by the watcher thread for an error notification:
the literal format string from the source with the error's display text
interpolated. -/
def errorPayload (err : String) : String :=
  "\x7b\"error\":\"" ++ err ++ "\"\x7d"

/-- The body of the `match result` inside the watcher thread loop: one emit
per received notification, always under the topic `notes://fs`. -/
def emitFor (r : Except String FsEvent) : Emit :=
  match r with
  | Except.ok ev => Emit.mk "notes://fs" (eventPayload ev)
  | Except.error err => Emit.mk "notes://fs" (errorPayload err)

/-- The watcher thread's `for result in rx` loop: the list argument is the
sequence of notifications received on the channel before it is closed; the
loop runs to the end of that sequence. -/
def watcherLoop : List (Except String FsEvent) → List Emit
  | [] => []
  | r :: rest => emitFor r :: watcherLoop rest

/-- Externally visible effects of the lifecycle code, recorded in order.
`logMessage` is in the vocabulary because the spec speaks of logging; the
embedded code decides whether it is ever produced. -/
inductive Effect where
  /-- `watcher.unwatch(Path::new(&self.root))`; `ok` is the native result,
  discarded by the source. -/
  | unwatch (root : String) (ok : Bool)
  /-- `handle.join()`; `ok` is the join result, discarded by the source. -/
  | joinThread (ok : Bool)
  /-- `RecommendedWatcher::new(tx, Config::default())`; `ok` is whether the
  native watch subsystem could be created. -/
  | watchCreate (ok : Bool)
  /-- `watcher.watch(Path::new(&root), RecursiveMode::Recursive)`. -/
  | watchRegister (root : String) (ok : Bool)
  /-- `std::thread::spawn` of the observer loop. -/
  | spawnThread
  /-- `app_handle.emit(topic, payload)` from the observer thread. -/
  | emitEvent (topic : String) (payload : String)
  /-- A log write.  Never produced by the embedded code. -/
  | logMessage (msg : String)
deriving DecidableEq

/-- Whether an action is a log write. -/
def Effect.isLog : Effect → Bool
  | Effect.logMessage _ => true
  | _ => false

/-- Whether an action is an attempt to create the native watch subsystem,
the first step of starting a new observer. -/
def Effect.isWatchCreate : Effect → Bool
  | Effect.watchCreate _ => true
  | _ => false

/-- Handle to a native `RecommendedWatcher`; `unwatchOk` is the result the
native layer will report for `unwatch` on this handle. -/
structure RecommendedWatcher where
  unwatchOk : Bool
deriving DecidableEq

/-- A `std::thread::JoinHandle<()>`; `joinOk` is the result `join` will
report (false when the thread panicked). -/
structure JoinHandle where
  joinOk : Bool
deriving DecidableEq

/-- The `WatcherGuard` struct: the watched root plus the optional native
watcher handle and background thread handle. -/
structure WatcherGuard where
  root : String
  watcher : Option RecommendedWatcher
  thread : Option JoinHandle
deriving DecidableEq

/-- `WatcherGuard::stop`: take and unwatch the native watcher if present
(result discarded), then take and join the thread if present (result
discarded).  Returns the updated guard and the emitted actions. -/
def WatcherGuard.stop (g : WatcherGuard) : WatcherGuard × List Effect :=
  let step1 : WatcherGuard × List Effect :=
    match g.watcher with
    | some w => ({ g with watcher := none }, [Effect.unwatch g.root w.unwatchOk])
    | none => (g, [])
  match step1.1.thread with
  | some t => ({ step1.1 with thread := none }, step1.2 ++ [Effect.joinThread t.joinOk])
  | none => (step1.1, step1.2)

/-- `Drop for WatcherGuard`: `drop` just calls `self.stop()`. -/
def WatcherGuard.dropRun (g : WatcherGuard) : WatcherGuard × List Effect :=
  g.stop

/-- Environment-decided outcome of one `spawn_fs_watcher` call: the native
watch creation fails, the watch registration fails, or both succeed and the
given handles are produced. -/
inductive SpawnOutcome where
  | createFail (err : String)
  | watchFail (err : String)
  | ok (w : RecommendedWatcher) (t : JoinHandle)
deriving DecidableEq

/-- `spawn_fs_watcher`: create the native watcher, register the root
recursively, then spawn the observer thread and return the assembled guard.
Each `?` early-returns the native error; the thread is spawned only after
both native steps succeed. -/
def spawn_fs_watcher (out : SpawnOutcome) (root : String) :
    Except String WatcherGuard × List Effect :=
  match out with
  | SpawnOutcome.createFail e => (Except.error e, [Effect.watchCreate false])
  | SpawnOutcome.watchFail e =>
      (Except.error e, [Effect.watchCreate true, Effect.watchRegister root false])
  | SpawnOutcome.ok w t =>
      (Except.ok (WatcherGuard.mk root (some w) (some t)),
        [Effect.watchCreate true, Effect.watchRegister root true, Effect.spawnThread])

/-- `NotesWatcherState`: the `Mutex<Option<WatcherGuard>>` slot, modelled as
its contents plus a poisoned flag (`lock` fails exactly when the mutex is
poisoned). -/
structure NotesWatcherState where
  poisoned : Bool
  inner : Option WatcherGuard
deriving DecidableEq

/-- `NotesWatcherState::default()`: healthy mutex around an empty slot. -/
def initialState : NotesWatcherState :=
  NotesWatcherState.mk false none

/-- `NotesWatcherState::set_root`: lock the slot (error if poisoned), take
and stop any existing guard, spawn the new watcher, and either store it or
propagate the mapped error with the slot left empty.  The stopped guard's
implicit `Drop` runs `stop` again on a guard whose fields are already empty,
which emits nothing. -/
def NotesWatcherState.set_root (s : NotesWatcherState) (out : SpawnOutcome)
    (root : String) : Except String Unit × NotesWatcherState × List Effect :=
  if s.poisoned then
    (Except.error "Failed to lock notes watcher state", s, [])
  else
    let stopTrace : List Effect :=
      match s.inner with
      | some existing => existing.stop.2
      | none => []
    match spawn_fs_watcher out root with
    | (Except.ok g, spawnTrace) =>
        (Except.ok (), NotesWatcherState.mk s.poisoned (some g), stopTrace ++ spawnTrace)
    | (Except.error e, spawnTrace) =>
        (Except.error ("Failed to initialize notes watcher: " ++ e),
          NotesWatcherState.mk s.poisoned none, stopTrace ++ spawnTrace)

/-- The `set_notes_root` tauri command: reject a path whose trim is empty
before touching the watcher state, otherwise delegate to `set_root` with
`PathBuf::from(path)`. -/
def set_notes_root (s : NotesWatcherState) (out : SpawnOutcome) (path : String) :
    Except String Unit × NotesWatcherState × List Effect :=
  if (rustTrim path.data).isEmpty then
    (Except.error "Path must not be empty", s, [])
  else
    s.set_root out path

/-- The `NOTES_ROOT` block of `main`'s setup closure: when the variable is
present and its trim is non-empty, call `set_root` with it and discard the
result (`let _ = ...`).  The first component lists the roots passed to
`set_root`; setup always returns normally. -/
def setupNotesRoot (env : Option String) (s : NotesWatcherState)
    (out : SpawnOutcome) : List String × NotesWatcherState × List Effect :=
  match env with
  | some root =>
      if (rustTrim root.data).isEmpty then ([], s, [])
      else ([root], (s.set_root out root).2.1, (s.set_root out root).2.2)
  | none => ([], s, [])

/-- Run a sequence of `set_root` calls, each with its environment-decided
spawn outcome and requested root, concatenating the traces. -/
def runCalls (s : NotesWatcherState) :
    List (SpawnOutcome × String) → NotesWatcherState × List Effect
  | [] => (s, [])
  | (out, root) :: rest =>
      let first := s.set_root out root
      let later := runCalls first.2.1 rest
      (later.1, first.2.2 ++ later.2)

/-- Contribution of one action to the number of live observer threads. -/
def threadDelta : Effect → Int
  | Effect.spawnThread => 1
  | Effect.joinThread _ => -1
  | _ => 0

/-- Number of observer threads live after a trace. -/
def liveThreads (tr : List Effect) : Int :=
  (tr.map threadDelta).sum

/-- Largest running sum over all front segments of a list of integers. -/
def peakSum : List Int → Int
  | [] => 0
  | x :: xs => max 0 (x + peakSum xs)

/-- Observer threads accounted for by the state's slot. -/
def slotThreads (s : NotesWatcherState) : Int :=
  match s.inner with
  | some g => if g.thread.isSome then 1 else 0
  | none => 0


/-- A trim of a list of whitespace characters is empty. -/
lemma rustTrim_eq_nil_of_all_ws (l : List Char)
    (h : ∀ c ∈ l, isRustWhitespace c = true) : rustTrim l = [] := by
  have hd : l.dropWhile isRustWhitespace = [] :=
    List.dropWhile_eq_nil_iff.mpr h
  simp [rustTrim, trimEnd, hd]

/-- A stop trace contains no watch-creation attempt. -/
lemma stop_trace_no_watchCreate (g : WatcherGuard) :
    (g.stop.2).countP Effect.isWatchCreate = 0 := by
  rcases g with ⟨r, _ | w, _ | t⟩ <;>
    simp [WatcherGuard.stop, Effect.isWatchCreate]

/-- C10: `WatcherGuard::stop` is idempotent: afterwards both resource fields
are empty, so a further `stop` (in particular the one run by the `Drop`
implementation) performs no unwatch and no join and leaves the guard
unchanged. -/
theorem stop_idempotent_c10 (g : WatcherGuard) :
    g.stop.1.watcher = none ∧ g.stop.1.thread = none ∧
    g.stop.1.stop = (g.stop.1, []) ∧
    g.stop.1.dropRun = (g.stop.1, []) := by
  rcases g with ⟨r, _ | w, _ | t⟩ <;>
    simp [WatcherGuard.stop, WatcherGuard.dropRun]

/-- C7 (amended): `stop` unwatches the guard's stored root and then joins the
background thread, clears both fields, and swallows unwatch and join failures
silently: nothing is propagated (the function cannot fail) and nothing is
logged. -/
theorem stop_releases_and_swallows_c7 (g : WatcherGuard)
    (w : RecommendedWatcher) (t : JoinHandle)
    (hw : g.watcher = some w) (ht : g.thread = some t) :
    g.stop.2 = [Effect.unwatch g.root w.unwatchOk, Effect.joinThread t.joinOk] ∧
    g.stop.1 = WatcherGuard.mk g.root none none ∧
    (g.stop.2).countP Effect.isLog = 0 := by
  rcases g with ⟨r, gw, gt⟩
  cases hw
  cases ht
  simp [WatcherGuard.stop, Effect.isLog]

/-- Guard used for concrete instantiations: both native operations fail. -/
def guardW : WatcherGuard :=
  WatcherGuard.mk "/old/root" (some (RecommendedWatcher.mk false))
    (some (JoinHandle.mk false))

theorem stop_releases_and_swallows_c7_witness :
    guardW.watcher = some (RecommendedWatcher.mk false) ∧
    guardW.thread = some (JoinHandle.mk false) ∧
    guardW.stop.2 = [Effect.unwatch "/old/root" false, Effect.joinThread false] ∧
    guardW.stop.1 = WatcherGuard.mk "/old/root" none none ∧
    (guardW.stop.2).countP Effect.isLog = 0 := by
  have h := stop_releases_and_swallows_c7 guardW (RecommendedWatcher.mk false)
    (JoinHandle.mk false) rfl rfl
  exact ⟨rfl, rfl, h.1, h.2.1, h.2.2⟩

/-- C7 counterexample: at a guard whose native unwatch and join both fail,
`stop` emits the failing unwatch and the failing join and no log write at
all, refuting the part of the claim that says those failures are logged. -/
theorem stop_failures_not_logged_cex_c7 :
    (WatcherGuard.mk "/dir" (some (RecommendedWatcher.mk false))
        (some (JoinHandle.mk false))).stop.2
      = [Effect.unwatch "/dir" false, Effect.joinThread false] ∧
    ((WatcherGuard.mk "/dir" (some (RecommendedWatcher.mk false))
        (some (JoinHandle.mk false))).stop.2).countP Effect.isLog = 0 := by
  decide

/-- C2: a `set_notes_root` call whose path is empty or all whitespace fails
with the descriptive error before any watcher work: no effects are emitted
and the state, in particular any existing observation, is returned
untouched. -/
theorem blank_path_rejected_c2 (s : NotesWatcherState) (out : SpawnOutcome)
    (path : String) (h : ∀ c ∈ path.data, isRustWhitespace c = true) :
    set_notes_root s out path = (Except.error "Path must not be empty", s, []) := by
  have htrim : rustTrim path.data = [] := rustTrim_eq_nil_of_all_ws path.data h
  simp [set_notes_root, htrim]

/-- Spawn outcome used for concrete instantiations: both native steps
succeed. -/
def outW : SpawnOutcome :=
  SpawnOutcome.ok (RecommendedWatcher.mk true) (JoinHandle.mk true)

/-- State used for concrete instantiations: healthy lock, occupied slot. -/
def stateW : NotesWatcherState :=
  NotesWatcherState.mk false (some guardW)

theorem blank_path_rejected_c2_witness :
    (∀ c ∈ (" \t ".data), isRustWhitespace c = true) ∧
    set_notes_root stateW outW " \t "
      = (Except.error "Path must not be empty", stateW, []) :=
  ⟨by decide, blank_path_rejected_c2 stateW outW " \t " (by decide)⟩

/-- C3: when starting the new observer fails (native watch creation or watch
registration), `set_root` returns the mapped error, leaves the slot empty
(the already-stopped prior observation is not restored), and makes exactly
one start attempt. -/
theorem spawn_failure_empty_slot_c3 (s : NotesWatcherState) (out : SpawnOutcome)
    (root e : String) (hp : s.poisoned = false)
    (hf : out = SpawnOutcome.createFail e ∨ out = SpawnOutcome.watchFail e) :
    (s.set_root out root).1
      = Except.error ("Failed to initialize notes watcher: " ++ e) ∧
    (s.set_root out root).2.1.inner = none ∧
    ((s.set_root out root).2.2).countP Effect.isWatchCreate = 1 := by
  rcases s with ⟨p, inn⟩
  cases hp
  rcases hf with rfl | rfl <;> rcases inn with _ | g <;>
    simp [NotesWatcherState.set_root, spawn_fs_watcher, Effect.isWatchCreate,
      stop_trace_no_watchCreate]

theorem spawn_failure_empty_slot_c3_witness :
    stateW.poisoned = false ∧
    (stateW.set_root (SpawnOutcome.createFail "no fds") "/notes").1
      = Except.error ("Failed to initialize notes watcher: " ++ "no fds") ∧
    (stateW.set_root (SpawnOutcome.createFail "no fds") "/notes").2.1.inner = none ∧
    ((stateW.set_root (SpawnOutcome.createFail "no fds") "/notes").2.2).countP
        Effect.isWatchCreate = 1 := by
  have h := spawn_failure_empty_slot_c3 stateW (SpawnOutcome.createFail "no fds")
    "/notes" "no fds" rfl (Or.inl rfl)
  exact ⟨rfl, h.1, h.2.1, h.2.2⟩

/-- The watcher loop is the per-notification handler mapped over the
received notifications. -/
lemma watcherLoop_eq_map (rs : List (Except String FsEvent)) :
    watcherLoop rs = rs.map emitFor := by
  induction rs with
  | nil => rfl
  | cons r rest ih => simp [watcherLoop, ih]

/-- The watcher loop emits exactly as many events as it receives
notifications. -/
lemma watcherLoop_length (rs : List (Except String FsEvent)) :
    (watcherLoop rs).length = rs.length := by
  rw [watcherLoop_eq_map]
  exact List.length_map rs emitFor

/-- Every emitted event carries the fixed topic. -/
lemma emitFor_topic (r : Except String FsEvent) :
    (emitFor r).topic = "notes://fs" := by
  rcases r with e | ev <;> rfl

/-- C5: the observer thread emits exactly one event per received
notification, always under the topic `notes://fs`, with payload the JSON
serialization of the affected UTF-8-convertible paths for a successful
event, and the error-shaped payload for an error notification. -/
theorem one_emit_per_notification_c5 (rs : List (Except String FsEvent))
    (ev : FsEvent) (err : String) :
    watcherLoop rs = rs.map emitFor ∧
    (watcherLoop rs).length = rs.length ∧
    (watcherLoop rs).map Emit.topic = List.replicate rs.length "notes://fs" ∧
    emitFor (Except.ok ev)
      = Emit.mk "notes://fs"
          (jsonEncodeStringArray (ev.paths.filterMap FsPath.toStr)) ∧
    emitFor (Except.error err) = Emit.mk "notes://fs" (errorPayload err) := by
  refine ⟨watcherLoop_eq_map rs, watcherLoop_length rs, ?_, ?_, rfl⟩
  · induction rs with
    | nil => rfl
    | cons r rest ih =>
        simp [watcherLoop, ih, emitFor_topic, List.replicate]
  · simp [emitFor, eventPayload, serdeToStringVec]

/-- C6: an error notification produces one error-shaped emit and the loop
keeps consuming the remaining notifications; the emit count still matches
the notification count, and the loop ends only at the end of the channel's
notification sequence. -/
theorem error_keeps_running_c6 (pre post : List (Except String FsEvent))
    (e : String) :
    watcherLoop (pre ++ Except.error e :: post)
      = watcherLoop pre
          ++ Emit.mk "notes://fs" (errorPayload e) :: watcherLoop post ∧
    (watcherLoop (pre ++ Except.error e :: post)).length
      = pre.length + 1 + post.length := by
  constructor
  · simp [watcherLoop_eq_map, emitFor]
  · rw [watcherLoop_length]
    simp
    omega

/-- C9: for every successful event, the payload is the JSON array of exactly
the affected paths convertible to UTF-8 (`filterMap FsPath.toStr`); a
non-convertible path anywhere in the sequence is silently omitted while the
convertible ones around it are kept in their original order, so the payload
may be the empty array even when the event affected paths. -/
theorem non_utf8_paths_omitted_c9 (ev : FsEvent) (pre post : List FsPath)
    (s : String) :
    (emitFor (Except.ok ev)).payload
      = jsonEncodeStringArray (ev.paths.filterMap FsPath.toStr) ∧
    (pre ++ FsPath.mk none :: post).filterMap FsPath.toStr
      = (pre ++ post).filterMap FsPath.toStr ∧
    (pre ++ FsPath.mk (some s) :: post).filterMap FsPath.toStr
      = pre.filterMap FsPath.toStr ++ s :: post.filterMap FsPath.toStr ∧
    (emitFor (Except.ok (FsEvent.mk [FsPath.mk none, FsPath.mk none]))).payload
      = "[]" := by
  refine ⟨by simp [emitFor, eventPayload, serdeToStringVec], ?_, ?_, rfl⟩
  · simp [List.filterMap_append, List.filterMap_cons]
  · simp [List.filterMap_append, List.filterMap_cons]

/-- The peak running sum is never negative (the empty front segment is a
front segment). -/
lemma peakSum_nonneg (l : List Int) : 0 ≤ peakSum l := by
  cases l with
  | nil => simp [peakSum]
  | cons x xs => exact le_max_left 0 _

/-- Peak running sum of a concatenation. -/
lemma peakSum_append (a b : List Int) :
    peakSum (a ++ b) = max (peakSum a) (a.sum + peakSum b) := by
  induction a with
  | nil =>
      simp [peakSum]
      exact peakSum_nonneg b
  | cons x xs ih =>
      rw [List.cons_append, peakSum, ih, ← max_add_add_left, ← max_assoc]
      simp [peakSum, List.sum_cons, add_assoc]

/-- Every front-segment sum is bounded by the peak running sum. -/
lemma sum_take_le_peakSum (l : List Int) : ∀ n : Nat, (l.take n).sum ≤ peakSum l := by
  induction l with
  | nil => intro n; simp [peakSum]
  | cons x xs ih =>
      intro n
      cases n with
      | zero => simpa using peakSum_nonneg (x :: xs)
      | succ m =>
          simp only [List.take_succ_cons, List.sum_cons, peakSum]
          have h2 : x + (xs.take m).sum ≤ x + peakSum xs := by
            have := ih m
            linarith
          exact le_trans h2 (le_max_right 0 _)

/-- The slot accounts for at most one live observer thread. -/
lemma slotThreads_le_one (s : NotesWatcherState) : slotThreads s ≤ 1 := by
  rcases s with ⟨p, _ | g⟩
  · simp [slotThreads]
  · simp only [slotThreads]
    split <;> norm_num

/-- One `set_root` call never pushes the number of live observer threads
above one at any interior point, and its trace balance matches the slot of
the state it returns. -/
lemma set_root_call_bound (s : NotesWatcherState) (out : SpawnOutcome)
    (root : String) :
    slotThreads s + peakSum (((s.set_root out root).2.2).map threadDelta) ≤ 1 ∧
    slotThreads s + (((s.set_root out root).2.2).map threadDelta).sum
      = slotThreads (s.set_root out root).2.1 := by
  rcases s with ⟨p, inn⟩
  cases p
  · rcases inn with _ | ⟨r, _ | w, _ | t⟩ <;>
      rcases out with e | e | ⟨w2, t2⟩ <;>
        simp [NotesWatcherState.set_root, spawn_fs_watcher, WatcherGuard.stop,
          slotThreads, threadDelta, peakSum]
  · constructor
    · simpa [NotesWatcherState.set_root, peakSum] using
        slotThreads_le_one (NotesWatcherState.mk true inn)
    · simp [NotesWatcherState.set_root]

/-- Along any sequence of `set_root` calls, the trace's peak number of live
observer threads, counted on top of those of the starting state, never
exceeds one. -/
lemma runCalls_bound (calls : List (SpawnOutcome × String)) :
    ∀ s : NotesWatcherState,
      slotThreads s + peakSum (((runCalls s calls).2).map threadDelta) ≤ 1 := by
  induction calls with
  | nil =>
      intro s
      simpa [runCalls, peakSum] using slotThreads_le_one s
  | cons c rest ih =>
      intro s
      rcases c with ⟨out, root⟩
      have h1 := set_root_call_bound s out root
      have h2 := ih (s.set_root out root).2.1
      simp only [runCalls, List.map_append, peakSum_append]
      rcases le_total (peakSum (((s.set_root out root).2.2).map threadDelta))
          ((((s.set_root out root).2.2).map threadDelta).sum
            + peakSum (((runCalls (s.set_root out root).2.1 rest).2).map threadDelta))
        with hle | hle
      · rw [max_eq_right hle]
        linarith [h1.1, h1.2, h2]
      · rw [max_eq_left hle]
        exact h1.1

/-- C1: whenever a prior observation occupies the slot, `set_root` first
unwatches it and joins its background thread, and only then starts the new
observer; consequently, over every sequence of `set_root` calls from the
initial state, the number of live observer threads never exceeds one at any
point of the effect trace. -/
theorem single_observation_c1 (s : NotesWatcherState) (g : WatcherGuard)
    (w : RecommendedWatcher) (t : JoinHandle) (out : SpawnOutcome)
    (root : String) (calls : List (SpawnOutcome × String)) (n : Nat)
    (hp : s.poisoned = false) (hg : s.inner = some g)
    (hw : g.watcher = some w) (ht : g.thread = some t) :
    (s.set_root out root).2.2
      = Effect.unwatch g.root w.unwatchOk :: Effect.joinThread t.joinOk
          :: (spawn_fs_watcher out root).2 ∧
    liveThreads (((runCalls initialState calls).2).take n) ≤ 1 := by
  constructor
  · rcases s with ⟨p, inn⟩
    cases hp
    cases hg
    rcases g with ⟨r, gw, gt⟩
    cases hw
    cases ht
    rcases out with e | e | ⟨w2, t2⟩ <;>
      simp [NotesWatcherState.set_root, WatcherGuard.stop, spawn_fs_watcher]
  · have hb := runCalls_bound calls initialState
    have hs : slotThreads initialState = 0 := rfl
    rw [hs, zero_add] at hb
    have htake : liveThreads (((runCalls initialState calls).2).take n)
        = ((((runCalls initialState calls).2).map threadDelta).take n).sum := by
      simp [liveThreads, List.map_take]
    rw [htake]
    exact le_trans
      (sum_take_le_peakSum (((runCalls initialState calls).2).map threadDelta) n) hb

theorem single_observation_c1_witness :
    stateW.poisoned = false ∧ stateW.inner = some guardW ∧
    guardW.watcher = some (RecommendedWatcher.mk false) ∧
    guardW.thread = some (JoinHandle.mk false) ∧
    (stateW.set_root outW "/new").2.2
      = Effect.unwatch "/old/root" false :: Effect.joinThread false
          :: (spawn_fs_watcher outW "/new").2 ∧
    liveThreads (((runCalls initialState
        [(outW, "/a"), (SpawnOutcome.createFail "x", "/b"), (outW, "/c")]).2).take 5)
      ≤ 1 := by
  have h := single_observation_c1 stateW guardW (RecommendedWatcher.mk false)
    (JoinHandle.mk false) outW "/new"
    [(outW, "/a"), (SpawnOutcome.createFail "x", "/b"), (outW, "/c")] 5
    rfl rfl rfl rfl
  exact ⟨rfl, rfl, rfl, rfl, h.1, h.2⟩

/-- C4 counterexample: at a whitespace-only path with a prior observation in
the slot, the command fails the non-emptiness validation with an empty
effect trace and the prior observation still in the slot untouched, so its
teardown did not precede the validation. -/
theorem teardown_not_before_validation_cex_c4 :
    set_notes_root stateW outW " "
      = (Except.error "Path must not be empty", stateW, []) ∧
    stateW.inner = some guardW ∧
    guardW.watcher = some (RecommendedWatcher.mk false) ∧
    guardW.thread = some (JoinHandle.mk false) := by
  exact ⟨rfl, rfl, rfl, rfl⟩

/-- C4 (amended): the non-emptiness validation strictly precedes teardown of
the prior observation: a whitespace-only path produces no effect at all and
leaves the state unchanged, while a path that passes the validation first
tears the prior observation down (unwatch, then join) and only then starts
the new observer. -/
theorem validation_before_teardown_c4 (s : NotesWatcherState) (g : WatcherGuard)
    (w : RecommendedWatcher) (t : JoinHandle) (out : SpawnOutcome)
    (path : String) (hp : s.poisoned = false) (hg : s.inner = some g)
    (hw : g.watcher = some w) (ht : g.thread = some t)
    (hnb : (rustTrim path.data).isEmpty = false) :
    (set_notes_root s out path).2.2
      = Effect.unwatch g.root w.unwatchOk :: Effect.joinThread t.joinOk
          :: (spawn_fs_watcher out path).2 ∧
    ∀ q : String, (rustTrim q.data).isEmpty = true →
      set_notes_root s out q = (Except.error "Path must not be empty", s, []) := by
  constructor
  · rcases s with ⟨p, inn⟩
    cases hp
    cases hg
    rcases g with ⟨r, gw, gt⟩
    cases hw
    cases ht
    rcases out with e | e | ⟨w2, t2⟩ <;>
      simp [set_notes_root, hnb, NotesWatcherState.set_root, WatcherGuard.stop,
        spawn_fs_watcher]
  · intro q hq
    simp [set_notes_root, hq]

theorem validation_before_teardown_c4_witness :
    stateW.poisoned = false ∧ stateW.inner = some guardW ∧
    guardW.watcher = some (RecommendedWatcher.mk false) ∧
    guardW.thread = some (JoinHandle.mk false) ∧
    (rustTrim "/new/root".data).isEmpty = false ∧
    (set_notes_root stateW outW "/new/root").2.2
      = Effect.unwatch "/old/root" false :: Effect.joinThread false
          :: (spawn_fs_watcher outW "/new/root").2 ∧
    set_notes_root stateW outW "\t"
      = (Except.error "Path must not be empty", stateW, []) := by
  have h := validation_before_teardown_c4 stateW guardW
    (RecommendedWatcher.mk false) (JoinHandle.mk false) outW "/new/root"
    rfl rfl rfl rfl (by decide)
  exact ⟨rfl, rfl, rfl, rfl, by decide, h.1, h.2 "\t" (by decide)⟩

/-- No `set_root` trace contains a log write. -/
lemma set_root_trace_no_log (s : NotesWatcherState) (out : SpawnOutcome)
    (root : String) :
    ((s.set_root out root).2.2).countP Effect.isLog = 0 := by
  rcases s with ⟨p, inn⟩
  cases p <;> rcases inn with _ | ⟨r, _ | w, _ | t⟩ <;>
    rcases out with e | e | ⟨w2, t2⟩ <;>
      simp [NotesWatcherState.set_root, spawn_fs_watcher, WatcherGuard.stop,
        Effect.isLog]

/-- C8 counterexample: with `NOTES_ROOT` present and non-blank and a failing
native watch creation, `set_root` fails at startup, the value was passed to
`set_root`, yet the startup trace contains no log write, refuting the part
of the claim that says the failure is logged. -/
theorem startup_failure_not_logged_cex_c8 :
    (initialState.set_root (SpawnOutcome.createFail "exhausted") "/notes").1
      = Except.error ("Failed to initialize notes watcher: " ++ "exhausted") ∧
    (setupNotesRoot (some "/notes") initialState
        (SpawnOutcome.createFail "exhausted")).1 = ["/notes"] ∧
    ((setupNotesRoot (some "/notes") initialState
        (SpawnOutcome.createFail "exhausted")).2.2).countP Effect.isLog = 0 :=
  ⟨rfl, rfl, rfl⟩

/-- C8 (amended): at startup, when `NOTES_ROOT` is present and not blank its
value is passed to `set_root` exactly once, the resulting state is the one
`set_root` produces while the result itself is discarded without logging
and without preventing startup; when the variable is absent or blank,
`set_root` is not called and nothing happens. -/
theorem env_root_startup_c8 (env : Option String) (s : NotesWatcherState)
    (out : SpawnOutcome) (root : String) (henv : env = some root)
    (hnb : (rustTrim root.data).isEmpty = false) :
    (setupNotesRoot env s out).1 = [root] ∧
    (setupNotesRoot env s out).2.1 = (s.set_root out root).2.1 ∧
    ((setupNotesRoot env s out).2.2).countP Effect.isLog = 0 ∧
    ∀ env2 : Option String,
      (∀ r : String, env2 = some r → (rustTrim r.data).isEmpty = true) →
        setupNotesRoot env2 s out = ([], s, []) := by
  cases henv
  refine ⟨?_, ?_, ?_, ?_⟩
  · simp [setupNotesRoot, hnb]
  · simp [setupNotesRoot, hnb]
  · simpa [setupNotesRoot, hnb] using set_root_trace_no_log s out root
  · intro env2 h
    rcases env2 with _ | r
    · rfl
    · simp [setupNotesRoot, h r rfl]

theorem env_root_startup_c8_witness :
    (some "/home/me/notes" : Option String) = some "/home/me/notes" ∧
    (rustTrim "/home/me/notes".data).isEmpty = false ∧
    (setupNotesRoot (some "/home/me/notes") initialState outW).1
      = ["/home/me/notes"] ∧
    (setupNotesRoot (some "/home/me/notes") initialState outW).2.1
      = (initialState.set_root outW "/home/me/notes").2.1 ∧
    ((setupNotesRoot (some "/home/me/notes") initialState outW).2.2).countP
        Effect.isLog = 0 ∧
    setupNotesRoot (some "  ") initialState outW = ([], initialState, []) := by
  have h := env_root_startup_c8 (some "/home/me/notes") initialState outW
    "/home/me/notes" rfl (by decide)
  refine ⟨rfl, by decide, h.1, h.2.1, h.2.2.1, ?_⟩
  have h2 := h.2.2.2 (some "  ")
  apply h2
  intro r hr
  cases hr
  decide
